import Mathlib

/-!
Verification of the LlamaParse PDF translator application (src/app.py).

The program is a thin wrapper (`LlamaParseAgentService`) around an external
document-parsing service, plus a Streamlit front end (`main`).  We embed the
pure computations directly, thread the external call as an explicit function
parameter of type `LlamaParse → String → Except ε (List Doc)`, and model the
front-end translate action as a trace of observable effects.
-/

namespace LlamaPdfParser

/-- Semantics of Python's `sep.join(xs)`: empty list gives `""`, a single
element is returned unchanged, otherwise elements are interleaved with `sep`
(no leading or trailing separator). -/
def strJoin (sep : String) : List String → String
  | [] => ""
  | [x] => x
  | x :: y :: xs => x ++ sep ++ strJoin sep (y :: xs)

/-- A parsed document segment returned by the external service; the code only
uses its `text` attribute (`doc.text` in `_collate_markdown_output`). -/
structure Doc where
  text : String
deriving DecidableEq, Repr

/-- The request object built by the `LlamaParse(...)` constructor call inside
`parse_document` (src/app.py lines 34-40), with the keyword arguments as
fields. -/
structure LlamaParse where
  result_type : String
  parse_mode : String
  complemental_formatting_instruction : String
  user_prompt : String
  api_key : String
deriving DecidableEq, Repr

/-- Python exceptions observable in this program: `ValueError` raised by the
service constructor, and an arbitrary exception from the external call
(carried as its `str(e)` message). -/
inductive PyExc where
  | valueError (msg : String)
  | external (msg : String)
deriving DecidableEq, Repr

/-- `str(e)` for the modelled exceptions. -/
def PyExc.toStr : PyExc → String
  | .valueError m => m
  | .external m => m

/-- Level of a `logging` call (`logging.info` / `logging.error`). -/
inductive LogLevel where
  | info
  | error
deriving DecidableEq, Repr

/-- One emitted log record. -/
structure LogEntry where
  level : LogLevel
  msg : String
deriving DecidableEq, Repr

/-- The state of a constructed `LlamaParseAgentService` (src/app.py lines
15-20): the stored `api_key`, `prompt` and `model` attributes. -/
structure LlamaParseAgentService where
  api_key : String
  prompt : String
  model : String
deriving DecidableEq, Repr

namespace LlamaParseAgentService

/-- `LlamaParseAgentService.__init__` (src/app.py lines 15-20).  The Python
default for `model` is `"parse_document_with_agent"`; callers of this model
pass it explicitly.  `if not self.api_key` is true exactly for the empty
string (the credential has type `str`; a missing environment variable is
read as `""` by the caller), in which case
`ValueError("LLAMA_CLOUD_API_KEY not provided")` is raised before the
`prompt` and `model` attributes are set. -/
def init (prompt api_key model : String) : Except PyExc LlamaParseAgentService :=
  if api_key = "" then
    .error (.valueError "LLAMA_CLOUD_API_KEY not provided")
  else
    .ok { api_key := api_key, prompt := prompt, model := model }

/-- `LlamaParseAgentService._collate_markdown_output` (src/app.py lines
22-27): `"\n\n".join([doc.text for doc in parsed_markdown])`. -/
def collate_markdown_output (parsed_markdown : List Doc) : String :=
  strJoin "\n\n" (parsed_markdown.map Doc.text)

/-- The `LlamaParse(...)` request object built inside `parse_document`
(src/app.py lines 34-40). -/
def buildRequest (svc : LlamaParseAgentService) : LlamaParse :=
  { result_type := "markdown"
    parse_mode := svc.model
    complemental_formatting_instruction := svc.prompt
    user_prompt := svc.prompt
    api_key := svc.api_key }

/-- `LlamaParseAgentService.parse_document` (src/app.py lines 29-47).  The
external `parser.load_data(file_path)` call is threaded as the function
`load_data`, taking the built request and the file path; `toStr` renders an
exception as `str(e)` does.  Returns the result of the `try` block together
with the emitted log records: on success the collated markdown and an info
log, on failure the same exception re-raised and an error log naming the
file path. -/
def parse_document {ε : Type} (svc : LlamaParseAgentService) (toStr : ε → String)
    (load_data : LlamaParse → String → Except ε (List Doc))
    (file_path : String) : Except ε String × List LogEntry :=
  match load_data svc.buildRequest file_path with
  | .ok document =>
      (.ok (collate_markdown_output document),
       [⟨.info, "✓ Successfully parsed document: " ++ file_path⟩])
  | .error e =>
      (.error e,
       [⟨.error, "✗ Error parsing document " ++ file_path ++ ": " ++ toStr e⟩])

end LlamaParseAgentService

/-- The `translation_prompt` triple-quoted literal of `main` (src/app.py
lines 113-118), byte for byte: it opens with a newline, each line carries
the 24-space indentation of the Python source (and the first line a
trailing space), and it closes with a newline plus 24 spaces. -/
def translation_prompt : String :=
  "\n                        Translate all text in this document to English. \n                        Preserve the original formatting, structure, and layout as markdown.\n                        If the text is already in English, keep it as is.\n                        Maintain all tables, lists, headers, and formatting elements.\n                        "

/-- Semantics of Python's `s.rsplit('.', 1)[0]` on the character list of
`s`: the characters before the last `'.'`, or all of them when no `'.'`
occurs. -/
def beforeLastDot : List Char → List Char
  | [] => []
  | c :: cs =>
      if '.' ∈ cs then c :: beforeLastDot cs
      else if c = '.' then []
      else c :: beforeLastDot cs

/-- `s.rsplit('.', 1)[0]` (src/app.py line 147): the stem used for the
download file name. -/
def rsplitDotStem (s : String) : String := ⟨beforeLastDot s.data⟩

/-- Observable effects of one run of the translate action in `main`, in
program order: writing the uploaded bytes to the temporary file,
constructing the service, issuing the external call, `os.unlink`, and the
Streamlit outputs (`st.error`, `st.success`, `st.markdown`, `st.code`,
`st.download_button`). -/
inductive Ev where
  | tmpWrite (path : String)
  | clientInit
  | extCall (path : String)
  | unlink (path : String)
  | errorMsg (s : String)
  | successMsg (s : String)
  | renderedMarkdown (s : String)
  | rawCode (s : String)
  | downloadButton (file_name dat mime : String)
deriving DecidableEq, Repr

/-- The translate-button branch of `main` (src/app.py lines 100-154) as a
trace of observable effects.  `api_key` is
`os.environ.get("LLAMA_CLOUD_API_KEY", "")` (a missing variable reads as
`""`), `tmp_file_path` is the fresh temporary file name chosen by
`tempfile.NamedTemporaryFile`, and `load_data` is the external service.
With an empty key only the configuration error is shown; otherwise the
`try` block writes the temporary file, constructs the service with
`translation_prompt` and the default model, calls `parse_document`, unlinks
the temporary file, and renders/downloads the output; the `except` handler
shows `"❌ Error processing document: " + str(e)` (and, notably, does not
unlink). -/
def main_translate (api_key uploaded_name tmp_file_path : String)
    (load_data : LlamaParse → String → Except PyExc (List Doc)) : List Ev :=
  if api_key = "" then
    [.errorMsg "⚠️ LLAMA_CLOUD_API_KEY environment variable not set. Please configure it in your deployment settings."]
  else
    match LlamaParseAgentService.init translation_prompt api_key
        "parse_document_with_agent" with
    | .error e =>
        [.tmpWrite tmp_file_path, .clientInit,
         .errorMsg ("❌ Error processing document: " ++ e.toStr)]
    | .ok service =>
        match (service.parse_document PyExc.toStr load_data tmp_file_path).1 with
        | .error e =>
            [.tmpWrite tmp_file_path, .clientInit, .extCall tmp_file_path,
             .errorMsg ("❌ Error processing document: " ++ e.toStr)]
        | .ok markdown_output =>
            [.tmpWrite tmp_file_path, .clientInit, .extCall tmp_file_path,
             .unlink tmp_file_path,
             .successMsg "✓ Translation completed!",
             .renderedMarkdown markdown_output,
             .rawCode markdown_output,
             .downloadButton (rsplitDotStem uploaded_name ++ "_translated.md")
               markdown_output "text/markdown"]

/- ## Helper lemmas -/

theorem beforeLastDot_of_not_mem (cs : List Char) (h : '.' ∉ cs) :
    beforeLastDot cs = cs := by
  induction cs with
  | nil => rfl
  | cons c cs ih =>
    have hc : ¬ c = '.' := fun hc => h (hc ▸ List.mem_cons_self c cs)
    have hcs : '.' ∉ cs := fun hm => h (List.mem_cons_of_mem c hm)
    simp [beforeLastDot, hcs, hc, ih hcs]

theorem beforeLastDot_append (a b : List Char) (h : '.' ∉ b) :
    beforeLastDot (a ++ '.' :: b) = a := by
  induction a with
  | nil => simp [beforeLastDot, h]
  | cons c a ih =>
    have hmem : '.' ∈ a ++ '.' :: b := by simp
    simp [beforeLastDot, hmem, ih]

theorem main_translate_ok_trace (key name path : String)
    (load_data : LlamaParse → String → Except PyExc (List Doc))
    (docs : List Doc) (hk : ¬ key = "")
    (h : load_data
        (LlamaParseAgentService.buildRequest
          ⟨key, translation_prompt, "parse_document_with_agent"⟩) path
        = .ok docs) :
    main_translate key name path load_data
      = [.tmpWrite path, .clientInit, .extCall path, .unlink path,
         .successMsg "✓ Translation completed!",
         .renderedMarkdown (LlamaParseAgentService.collate_markdown_output docs),
         .rawCode (LlamaParseAgentService.collate_markdown_output docs),
         .downloadButton (rsplitDotStem name ++ "_translated.md")
           (LlamaParseAgentService.collate_markdown_output docs)
           "text/markdown"] := by
  simp [main_translate, hk, LlamaParseAgentService.init,
        LlamaParseAgentService.parse_document, h]

theorem main_translate_error_trace (key name path : String)
    (load_data : LlamaParse → String → Except PyExc (List Doc))
    (e : PyExc) (hk : ¬ key = "")
    (h : load_data
        (LlamaParseAgentService.buildRequest
          ⟨key, translation_prompt, "parse_document_with_agent"⟩) path
        = .error e) :
    main_translate key name path load_data
      = [.tmpWrite path, .clientInit, .extCall path,
         .errorMsg ("❌ Error processing document: " ++ e.toStr)] := by
  simp [main_translate, hk, LlamaParseAgentService.init,
        LlamaParseAgentService.parse_document, h]

/- ## Theorems -/

/-- C1: `_collate_markdown_output` joins the segments' text fields in
sequence order with exactly one `"\n\n"` separator between consecutive
segments and no leading or trailing separator; in particular on segments
`["A", "B", "C"]` it returns `"A\n\nB\n\nC"`. -/
theorem collate_joins_in_order :
    LlamaParseAgentService.collate_markdown_output [⟨"A"⟩, ⟨"B"⟩, ⟨"C"⟩]
        = "A\n\nB\n\nC"
    ∧ ∀ (d e : Doc) (ds : List Doc),
        LlamaParseAgentService.collate_markdown_output (d :: e :: ds)
          = d.text ++ "\n\n"
              ++ LlamaParseAgentService.collate_markdown_output (e :: ds) := by
  refine ⟨rfl, ?_⟩
  intro d e ds
  rfl

/-- Witness for C1 at a concrete input. -/
theorem collate_joins_in_order_witness :
    LlamaParseAgentService.collate_markdown_output [⟨"A"⟩, ⟨"B"⟩, ⟨"C"⟩]
      = Doc.text ⟨"A"⟩ ++ "\n\n"
          ++ LlamaParseAgentService.collate_markdown_output [⟨"B"⟩, ⟨"C"⟩] :=
  collate_joins_in_order.2 ⟨"A"⟩ ⟨"B"⟩ [⟨"C"⟩]

/-- C5: collation edge cases: a single segment `["only"]` collates to
`"only"` with no separator, and an empty sequence collates to `""`. -/
theorem collate_edge_cases :
    LlamaParseAgentService.collate_markdown_output [⟨"only"⟩] = "only"
    ∧ LlamaParseAgentService.collate_markdown_output [] = "" :=
  ⟨rfl, rfl⟩

/-- C2: constructing the service with an empty (or missing, read as empty)
credential fails with `ValueError("LLAMA_CLOUD_API_KEY not provided")`
before the remaining attributes are stored; with any non-empty credential
and any instruction string it succeeds. -/
theorem init_requires_api_key :
    (∀ prompt model : String,
        LlamaParseAgentService.init prompt "" model
          = .error (.valueError "LLAMA_CLOUD_API_KEY not provided"))
    ∧ ∀ prompt api_key model : String, api_key ≠ "" →
        LlamaParseAgentService.init prompt api_key model
          = .ok { api_key := api_key, prompt := prompt, model := model } := by
  refine ⟨fun prompt model => rfl, fun prompt api_key model h => ?_⟩
  simp [LlamaParseAgentService.init, h]

/-- Witness for C2 at a concrete non-empty credential. -/
theorem init_requires_api_key_witness :
    ("key" : String) ≠ ""
    ∧ LlamaParseAgentService.init "do it" "key" "parse_document_with_agent"
        = .ok ⟨"key", "do it", "parse_document_with_agent"⟩ :=
  ⟨by decide,
   init_requires_api_key.2 "do it" "key" "parse_document_with_agent" (by decide)⟩

/-- C9: the constructor does not validate the instruction string: with a
non-empty credential and the empty prompt it succeeds, storing the empty
prompt unchanged. -/
theorem init_accepts_empty_prompt :
    ∀ api_key model : String, api_key ≠ "" →
      LlamaParseAgentService.init "" api_key model
        = .ok { api_key := api_key, prompt := "", model := model } := by
  intro api_key model h
  simp [LlamaParseAgentService.init, h]

/-- Witness for C9 at a concrete credential. -/
theorem init_accepts_empty_prompt_witness :
    ("key" : String) ≠ ""
    ∧ LlamaParseAgentService.init "" "key" "parse_document_with_agent"
        = .ok ⟨"key", "", "parse_document_with_agent"⟩ :=
  ⟨by decide, init_accepts_empty_prompt "key" "parse_document_with_agent" (by decide)⟩

/-- C3: whenever the external call raises, `parse_document` logs an error
record naming the file path and re-raises the very same exception; it does
not return any (partial, empty or substitute) result. -/
theorem parse_document_reraises {ε : Type} (toStr : ε → String)
    (svc : LlamaParseAgentService)
    (load_data : LlamaParse → String → Except ε (List Doc))
    (file_path : String) (e : ε)
    (h : load_data svc.buildRequest file_path = .error e) :
    svc.parse_document toStr load_data file_path
      = (.error e,
         [⟨.error, "✗ Error parsing document " ++ file_path ++ ": " ++ toStr e⟩]) := by
  simp [LlamaParseAgentService.parse_document, h]

/-- Witness for C3: a concrete failing external call. -/
theorem parse_document_reraises_witness :
    (fun (_ : LlamaParse) (_ : String) =>
        (Except.error "boom" : Except String (List Doc)))
      (LlamaParseAgentService.buildRequest ⟨"key", "p", "m"⟩) "doc.pdf"
      = .error "boom"
    ∧ LlamaParseAgentService.parse_document ⟨"key", "p", "m"⟩ (fun s => s)
        (fun _ _ => .error "boom") "doc.pdf"
      = (.error "boom", [⟨.error, "✗ Error parsing document doc.pdf: boom"⟩]) :=
  ⟨rfl,
   parse_document_reraises (fun s => s) ⟨"key", "p", "m"⟩
     (fun _ _ => .error "boom") "doc.pdf" "boom" rfl⟩

/-- C7: `parse_document` builds the outbound request with result format
`"markdown"`, the service's stored processing mode (`self.model`), and the
stored instruction passed identically as both the formatting directive and
the content directive; when the external call succeeds the returned
segments are collated and the joined string is returned. -/
theorem parse_document_request_and_collation :
    (∀ svc : LlamaParseAgentService,
        svc.buildRequest
          = ⟨"markdown", svc.model, svc.prompt, svc.prompt, svc.api_key⟩)
    ∧ ∀ {ε : Type} (toStr : ε → String) (svc : LlamaParseAgentService)
        (load_data : LlamaParse → String → Except ε (List Doc))
        (file_path : String) (docs : List Doc),
        load_data svc.buildRequest file_path = .ok docs →
        (svc.parse_document toStr load_data file_path).1
          = .ok (LlamaParseAgentService.collate_markdown_output docs) := by
  refine ⟨fun svc => rfl, ?_⟩
  intro ε toStr svc load_data file_path docs h
  simp [LlamaParseAgentService.parse_document, h]

/-- Witness for C7: a concrete successful external call. -/
theorem parse_document_request_and_collation_witness :
    (fun (_ : LlamaParse) (_ : String) =>
        (Except.ok [(⟨"Hello"⟩ : Doc)] : Except String (List Doc)))
      (LlamaParseAgentService.buildRequest ⟨"key", "p", "m"⟩) "doc.pdf"
      = .ok [⟨"Hello"⟩]
    ∧ (LlamaParseAgentService.parse_document ⟨"key", "p", "m"⟩ (fun s => s)
        (fun _ _ => .ok [⟨"Hello"⟩]) "doc.pdf").1
      = .ok (LlamaParseAgentService.collate_markdown_output [⟨"Hello"⟩]) :=
  ⟨rfl,
   parse_document_request_and_collation.2 (fun s => s) ⟨"key", "p", "m"⟩
     (fun _ _ => .ok [⟨"Hello"⟩]) "doc.pdf" [⟨"Hello"⟩] rfl⟩

/-- C6: with no credential configured (the environment variable reads as
`""`), the translate action only shows the configuration error: the client
is never constructed and the external call is never issued. -/
theorem missing_key_blocks_call :
    ∀ (uploaded_name tmp_file_path : String)
      (load_data : LlamaParse → String → Except PyExc (List Doc)),
      main_translate "" uploaded_name tmp_file_path load_data
        = [.errorMsg "⚠️ LLAMA_CLOUD_API_KEY environment variable not set. Please configure it in your deployment settings."]
      ∧ (∀ p, Ev.extCall p ∉ main_translate "" uploaded_name tmp_file_path load_data)
      ∧ Ev.clientInit ∉ main_translate "" uploaded_name tmp_file_path load_data := by
  intro name path load_data
  have h : main_translate "" name path load_data
      = [.errorMsg "⚠️ LLAMA_CLOUD_API_KEY environment variable not set. Please configure it in your deployment settings."] := by
    simp [main_translate]
  refine ⟨h, fun p => ?_, ?_⟩ <;> rw [h] <;> simp

/-- Witness for C6 at concrete inputs. -/
theorem missing_key_blocks_call_witness :
    main_translate "" "doc.pdf" "/tmp/t.pdf" (fun _ _ => .ok [])
      = [.errorMsg "⚠️ LLAMA_CLOUD_API_KEY environment variable not set. Please configure it in your deployment settings."]
    ∧ Ev.clientInit ∉ main_translate "" "doc.pdf" "/tmp/t.pdf" (fun _ _ => .ok []) :=
  ⟨(missing_key_blocks_call "doc.pdf" "/tmp/t.pdf" (fun _ _ => .ok [])).1,
   (missing_key_blocks_call "doc.pdf" "/tmp/t.pdf" (fun _ _ => .ok [])).2.2⟩

/-- C4: the temporary file is removed on the success path only.  When the
external call succeeds, `os.unlink` runs before the results are rendered
(the `unlink` event precedes `renderedMarkdown` in the trace); when the
call raises, the trace ends at the error message and contains no `unlink`,
so the temporary file is left behind. -/
theorem temp_file_cleanup_only_on_success :
    (∀ (key name path : String)
       (load_data : LlamaParse → String → Except PyExc (List Doc))
       (docs : List Doc), key ≠ "" →
       load_data
           (LlamaParseAgentService.buildRequest
             ⟨key, translation_prompt, "parse_document_with_agent"⟩) path
         = .ok docs →
       main_translate key name path load_data
         = [.tmpWrite path, .clientInit, .extCall path, .unlink path,
            .successMsg "✓ Translation completed!",
            .renderedMarkdown (LlamaParseAgentService.collate_markdown_output docs),
            .rawCode (LlamaParseAgentService.collate_markdown_output docs),
            .downloadButton (rsplitDotStem name ++ "_translated.md")
              (LlamaParseAgentService.collate_markdown_output docs)
              "text/markdown"])
    ∧ ∀ (key name path : String)
        (load_data : LlamaParse → String → Except PyExc (List Doc))
        (e : PyExc), key ≠ "" →
        load_data
            (LlamaParseAgentService.buildRequest
              ⟨key, translation_prompt, "parse_document_with_agent"⟩) path
          = .error e →
        main_translate key name path load_data
          = [.tmpWrite path, .clientInit, .extCall path,
             .errorMsg ("❌ Error processing document: " ++ e.toStr)]
        ∧ Ev.unlink path ∉ main_translate key name path load_data := by
  constructor
  · intro key name path load_data docs hk h
    exact main_translate_ok_trace key name path load_data docs hk h
  · intro key name path load_data e hk h
    have ht := main_translate_error_trace key name path load_data e hk h
    refine ⟨ht, ?_⟩
    rw [ht]
    simp

/-- Witness for C4: a concrete failing external call leaves the temporary
file behind. -/
theorem temp_file_cleanup_only_on_success_witness :
    (("key" : String) ≠ ""
      ∧ (fun (_ : LlamaParse) (_ : String) =>
            (Except.error (PyExc.external "boom") : Except PyExc (List Doc)))
          (LlamaParseAgentService.buildRequest
            ⟨"key", translation_prompt, "parse_document_with_agent"⟩) "/tmp/x.pdf"
          = .error (.external "boom"))
    ∧ main_translate "key" "doc.pdf" "/tmp/x.pdf"
          (fun _ _ => .error (.external "boom"))
        = [.tmpWrite "/tmp/x.pdf", .clientInit, .extCall "/tmp/x.pdf",
           .errorMsg ("❌ Error processing document: "
             ++ PyExc.toStr (.external "boom"))]
      ∧ Ev.unlink "/tmp/x.pdf"
          ∉ main_translate "key" "doc.pdf" "/tmp/x.pdf"
              (fun _ _ => .error (.external "boom")) :=
  ⟨⟨by decide, rfl⟩,
   temp_file_cleanup_only_on_success.2 "key" "doc.pdf" "/tmp/x.pdf"
     (fun _ _ => .error (.external "boom")) (.external "boom") (by decide) rfl⟩

/-- C8: on success the download artifact is offered under the name
`<stem>_translated.md` with MIME type `"text/markdown"`; uploading
`doc.pdf` with the service returning the single segment `"Hello"` renders
`"Hello"` and offers a download named `doc_translated.md`. -/
theorem success_renders_and_downloads :
    (∀ (key name path : String)
       (load_data : LlamaParse → String → Except PyExc (List Doc))
       (docs : List Doc), key ≠ "" →
       load_data
           (LlamaParseAgentService.buildRequest
             ⟨key, translation_prompt, "parse_document_with_agent"⟩) path
         = .ok docs →
       Ev.downloadButton (rsplitDotStem name ++ "_translated.md")
           (LlamaParseAgentService.collate_markdown_output docs) "text/markdown"
         ∈ main_translate key name path load_data)
    ∧ Ev.renderedMarkdown "Hello"
        ∈ main_translate "key" "doc.pdf" "/tmp/t.pdf"
            (fun _ _ => .ok [⟨"Hello"⟩])
    ∧ Ev.downloadButton "doc_translated.md" "Hello" "text/markdown"
        ∈ main_translate "key" "doc.pdf" "/tmp/t.pdf"
            (fun _ _ => .ok [⟨"Hello"⟩]) := by
  refine ⟨?_, ?_, ?_⟩
  · intro key name path load_data docs hk h
    rw [main_translate_ok_trace key name path load_data docs hk h]
    simp
  · decide
  · decide

/-- Witness for C8 at concrete inputs. -/
theorem success_renders_and_downloads_witness :
    (("key" : String) ≠ ""
      ∧ (fun (_ : LlamaParse) (_ : String) =>
            (Except.ok [(⟨"Hello"⟩ : Doc)] : Except PyExc (List Doc)))
          (LlamaParseAgentService.buildRequest
            ⟨"key", translation_prompt, "parse_document_with_agent"⟩) "/tmp/t.pdf"
          = .ok [⟨"Hello"⟩])
    ∧ Ev.downloadButton (rsplitDotStem "doc.pdf" ++ "_translated.md")
         (LlamaParseAgentService.collate_markdown_output [⟨"Hello"⟩]) "text/markdown"
       ∈ main_translate "key" "doc.pdf" "/tmp/t.pdf" (fun _ _ => .ok [⟨"Hello"⟩]) :=
  ⟨⟨by decide, rfl⟩,
   success_renders_and_downloads.1 "key" "doc.pdf" "/tmp/t.pdf"
     (fun _ _ => .ok [⟨"Hello"⟩]) [⟨"Hello"⟩] (by decide) rfl⟩

/-- C10: the download stem comes from `rsplit('.', 1)[0]`: a name with no
dot is used whole, and a name with several dots keeps everything before
the final dot. -/
theorem download_stem_last_dot :
    (∀ s : String, '.' ∉ s.data → rsplitDotStem s = s)
    ∧ (∀ a b : String, '.' ∉ b.data → rsplitDotStem (a ++ "." ++ b) = a)
    ∧ rsplitDotStem "archive.tar.gz" ++ "_translated.md"
        = "archive.tar_translated.md"
    ∧ rsplitDotStem "README" ++ "_translated.md" = "README_translated.md" := by
  refine ⟨?_, ?_, rfl, rfl⟩
  · intro s h
    show String.mk (beforeLastDot s.data) = s
    rw [beforeLastDot_of_not_mem s.data h]
  · intro a b h
    show String.mk (beforeLastDot (a ++ "." ++ b).data) = a
    have hd : (a ++ "." ++ b).data = a.data ++ '.' :: b.data := by
      simp [String.data_append]
    rw [hd, beforeLastDot_append a.data b.data h]

/-- Witness for C10 at a concrete multi-dot and dot-free name. -/
theorem download_stem_last_dot_witness :
    ('.' ∉ ("README" : String).data ∧ rsplitDotStem "README" = "README")
    ∧ ('.' ∉ ("gz" : String).data
        ∧ rsplitDotStem ("archive.tar" ++ "." ++ "gz") = "archive.tar") :=
  ⟨⟨by decide, download_stem_last_dot.1 "README" (by decide)⟩,
   ⟨by decide, download_stem_last_dot.2.1 "archive.tar" "gz" (by decide)⟩⟩

end LlamaPdfParser
